import Mathlib

/-!
Verification development for the gossiper server core (src/src/server.rs).

The Rust skeleton is shallowly embedded: structs become Lean structures,
enums become inductives, `HashSet` over a type with decidable equality
becomes `Finset` (or `List` where the element type is recursive), channels
become explicit message queues, and the randomly generated `Uuid` values
become `Nat` parameters supplied by the caller.  Operations that the spec
describes but that are absent from src (the dissemination-log `receive`,
the peer-view operations, the health derivation, the actor transition, and
the out-of-file `Addr`/`Broadcast`/`GossipResult` modules) are modelled
from the spec and marked as such in their doc comments.
-/

/-- Modelled from the spec: the `addr` module is not under src; an address
is a host plus port (`Addr::new(ip, port)` in the usage shown by server.rs). -/
structure Addr where
  host : String
  port : Nat
deriving DecidableEq, BEq

/-- Embeds `Addr::new` as used by `Server::listen`. -/
def Addr.new (ip : String) (port : Nat) : Addr :=
  { host := ip, port := port }

/-- Embeds `struct Node { id: Uuid, addr: Addr }` from server.rs.  The
`Uuid` is modelled as a `Nat` (a 128-bit value with no arithmetic on it).
The derived `PartialEq`/`Eq` of the Rust code is field-wise structural
equality, which coincides with Lean's propositional equality on this
structure. -/
structure Node where
  id : Nat
  addr : Addr
deriving DecidableEq, BEq

/-- Embeds the string part of the derived `Hash`: the bytes of the string
are fed to the hasher in order; modelled as an injective fold. -/
def strCode (s : String) : Nat :=
  s.data.foldl (fun h c => h * 256 + c.toNat) 0

/-- Embeds the derived `Hash` for `Addr`: both fields are fed to the
hasher; modelled with an injective pairing. -/
def addrCode (a : Addr) : Nat :=
  Nat.pair (strCode a.host) a.port

/-- Embeds `#[deriving(Hash)]` on `Node`: the derived implementation feeds
BOTH fields (`id` and `addr`) to the hasher, so the model pairs them. -/
def nodeHash (n : Node) : Nat :=
  Nat.pair n.id (addrCode n.addr)

/-- Embeds `enum Health { Green, Yellow, Red }` from server.rs. -/
inductive Health where
  | Green
  | Yellow
  | Red
deriving DecidableEq, BEq

/-- Embeds `enum ShutdownReason` from server.rs. -/
inductive ShutdownReason where
  | UserInitiatedShutdown
  | NetworkFailure
  | Failure
deriving DecidableEq, BEq

/-- Modelled from the spec: the `broadcast` module is not under src; a
broadcast is `{id, origin, payload, sequence}` with an opaque payload. -/
structure Broadcast where
  id : Nat
  origin : Nat
  payload : List Nat
  sequence : Nat
deriving DecidableEq, BEq

/-- Embeds `enum ServerMsg` from server.rs. -/
inductive ServerMsg where
  | Message (b : Broadcast)
  | Shutdown (r : ShutdownReason)
  | KillNode (n : Node)
deriving DecidableEq, BEq

/-- Embeds `struct Vertex { server: Node, edges: Vec<Rc<Vertex>> }` from
server.rs: each vertex carries its own vector of (owning `Rc`) references
to other vertices.  The `Rc` indirection is modelled away; what matters
structurally is that the edge list lives inside the vertex. -/
inductive Vertex where
  | mk (server : Node) (edges : List Vertex)

/-- Projection for the `server` field of `Vertex`. -/
def Vertex.server : Vertex → Node
  | .mk s _ => s

/-- Projection for the `edges` field of `Vertex`. -/
def Vertex.edges : Vertex → List Vertex
  | .mk _ e => e

/-- Embeds `struct Graph { vertices: HashSet<Vertex>, spanning: bool }`
from server.rs; the vertex set is modelled as a list since `Vertex` is
recursive. -/
structure Graph where
  vertices : List Vertex
  spanning : Bool

/-- Embeds `Graph::new`: empty vertex set and `spanning: false`. -/
def Graph.new : Graph :=
  { vertices := [], spanning := false }

/-- Whether graph `g` records a directed reference from a vertex whose
server is `a` to one whose server is `b`, following the representation of
server.rs: an edge is an entry of the `edges` vector held inside the
vertex for `a`. -/
def hasEdge (g : Graph) (a b : Node) : Bool :=
  g.vertices.any (fun v => v.server == a && v.edges.any (fun w => w.server == b))

/-- Embeds `struct State` from server.rs. -/
structure State where
  eager : Finset Node
  lazy : Finset Node
  health : Health
  broadcasts : List Broadcast
  graph : Graph

/-- Embeds `State::new` from server.rs: empty sets, `Yellow` health, empty
broadcast log, default graph. -/
def State.new : State :=
  { eager := ∅
    lazy := ∅
    health := Health.Yellow
    broadcasts := []
    graph := Graph.new }

/-- Modelled from the spec: the error taxonomy of the `result` module
(`GossipError`), which is not under src. -/
inductive GossipError where
  | BindFailure
  | TransportSendFailure
deriving DecidableEq, BEq

/-- Embeds `struct Server` from server.rs.  The channels are modelled as
message queues: `mailbox` stands for the server's own channel
(`sender`/`receiver` pair), `ctxSent` for the messages sent so far on the
client sender `ctx`. -/
structure Server where
  id : Nat
  addr : Option Addr
  state : State
  servers : List Node
  mailbox : List ServerMsg
  ctxSent : List ServerMsg

/-- Embeds `Server::new`: defaults everywhere; the random `Uuid::new_v4`
is a parameter. -/
def Server.new (uuid : Nat) : Server :=
  { id := uuid
    addr := none
    state := State.new
    servers := []
    mailbox := []
    ctxSent := [] }

/-- Embeds `Server::listen`: records the bind address and returns `Ok(())`
(the `GossipResult` is modelled as `Except GossipError`). -/
def Server.listen (s : Server) (ip : String) (port : Nat) :
    Server × Except GossipError Unit :=
  ({ s with addr := some (Addr.new ip port) }, Except.ok ())

/-- Embeds `Server::close`: sends `Shutdown(UserInitiatedShutdown)` on the
client channel `ctx`. -/
def Server.close (s : Server) : Server :=
  { s with ctxSent :=
      s.ctxSent ++ [ServerMsg.Shutdown ShutdownReason.UserInitiatedShutdown] }

/-- Concrete node used for claim C1: id 7, address x:1. -/
def n1a : Node :=
  { id := 7, addr := { host := "x", port := 1 } }

/-- Concrete node used for claim C1: same id 7, different address x:2. -/
def n1b : Node :=
  { id := 7, addr := { host := "x", port := 2 } }

/-- Concrete node used for claim C2. -/
def n2a : Node :=
  { id := 1, addr := { host := "a", port := 1 } }

/-- Concrete node used for claim C2. -/
def n2b : Node :=
  { id := 2, addr := { host := "b", port := 2 } }

/-- Concrete graph used for claim C2: the vertex for `n2a` holds an edge
reference to `n2b`, but the vertex for `n2b` holds none back — a value of
the server.rs `Graph` type in which the edge relation is not symmetric. -/
def asymGraph : Graph :=
  { vertices := [Vertex.mk n2a [Vertex.mk n2b []], Vertex.mk n2b []]
    spanning := false }

/-- Concrete server used as witness input. -/
def srv7 : Server := Server.new 7

/-- Concrete server used as witness input. -/
def srv8 : Server := Server.new 8

/-- Concrete server used as witness input. -/
def srv10 : Server := Server.new 10

/-- Modelled from the spec: the status returned by the dissemination log's
`receive` — `Duplicate` is informational, not an error, so the type has no
error arm. -/
inductive ReceiveStatus where
  | Accepted
  | Duplicate
deriving DecidableEq, BEq

/-- Modelled from the spec: the DisseminationLog — the ordered sequence of
applied broadcasts plus a `seen` set of ids for duplicate detection.  (The
`State` in src holds only the `broadcasts` vector; the `seen` set and the
`receive` operation are not yet implemented there.) -/
structure Log where
  broadcasts : List Broadcast
  seen : Finset Nat

/-- Modelled from the spec: `receive(b)` — if `b.id ∈ seen`, return
`Duplicate` with no side effect; otherwise append to the log, mark seen,
and return `Accepted`. -/
def receive (l : Log) (b : Broadcast) : Log × ReceiveStatus :=
  if b.id ∈ l.seen then (l, ReceiveStatus.Duplicate)
  else ({ broadcasts := l.broadcasts ++ [b], seen := insert b.id l.seen },
        ReceiveStatus.Accepted)

/-- Modelled from the spec: the peer-view operations named by the set
invariant, as one operation alphabet. -/
inductive PeerOp where
  | Join (p : Node)
  | Promote (p : Node)
  | Demote (p : Node)
  | Remove (p : Node)

/-- Modelled from the spec: the peer-view admission operation — adds `p`
to `eager` if the bounded eager-set capacity `k` allows, else to `lazy`;
no-op if `p` is the server's own identity or already a member of either
set.  (Named `joinPeer` here; the operations act on the eager/lazy fields
of the `State` struct of src.) -/
def joinPeer (k : Nat) (selfN : Node) (st : State) (p : Node) : State :=
  if p = selfN ∨ p ∈ st.eager ∨ p ∈ st.lazy then st
  else if st.eager.card < k then { st with eager := insert p st.eager }
  else { st with lazy := insert p st.lazy }

/-- Modelled from the spec: `promote(peer)` — move a peer from lazy to
eager; no-op if absent. -/
def promotePeer (st : State) (p : Node) : State :=
  if p ∈ st.lazy then
    { st with lazy := st.lazy.erase p, eager := insert p st.eager }
  else st

/-- Modelled from the spec: `demote(peer)` — move a peer from eager to
lazy; no-op if absent. -/
def demotePeer (st : State) (p : Node) : State :=
  if p ∈ st.eager then
    { st with eager := st.eager.erase p, lazy := insert p st.lazy }
  else st

/-- Modelled from the spec: `remove(peer)` — delete from both sets;
idempotent. -/
def removePeer (st : State) (p : Node) : State :=
  { st with eager := st.eager.erase p, lazy := st.lazy.erase p }

/-- Dispatch one peer-view operation. -/
def applyOp (k : Nat) (selfN : Node) (st : State) : PeerOp → State
  | .Join p => joinPeer k selfN st p
  | .Promote p => promotePeer st p
  | .Demote p => demotePeer st p
  | .Remove p => removePeer st p

/-- Apply a sequence of peer-view operations in order. -/
def applyOps (k : Nat) (selfN : Node) (st : State) : List PeerOp → State
  | [] => st
  | op :: rest => applyOps k selfN (applyOp k selfN st op) rest

/-- The peer-view set invariant: eager and lazy are disjoint and the
server's own identity belongs to neither. -/
def viewInv (selfN : Node) (st : State) : Prop :=
  (∀ x, x ∈ st.eager → x ∉ st.lazy) ∧ selfN ∉ st.eager ∧ selfN ∉ st.lazy

/-- Modelled from the spec: the health derivation over its inputs — the
count of known peers, the count of reachable peers, and the number of
connected components of the topology graph.  Red when reachable peers are
at or below the majority threshold (which subsumes the zero-known-peers
clause, since 0 is at or below the threshold of 0); Yellow when at least
one known peer is unreachable or there is more than one component while
reachable peers still exceed 50% of known peers; Green otherwise. -/
def deriveHealth (known reachable components : Nat) : Health :=
  if 2 * reachable ≤ known then Health.Red
  else if reachable < known ∨ 1 < components then Health.Yellow
  else Health.Green

/-- Modelled from the spec: the cluster-actor states. -/
inductive ActorState where
  | Running
  | Draining
  | Stopped
deriving DecidableEq, BEq

/-- Modelled from the spec: the message-driven part of the actor's state
machine — on a shutdown request while Running, transition to Draining and
originate the graceful-leave broadcast (the Bool component); every other
message leaves the actor state unchanged and originates nothing.  (The
Draining → Stopped step is driven by the transport handoff, not by a
mailbox message.) -/
def actorStep (st : ActorState) (m : ServerMsg) : ActorState × Bool :=
  match st, m with
  | ActorState.Running, ServerMsg.Shutdown _ => (ActorState.Draining, true)
  | s, _ => (s, false)

/-- Concrete log used as witness input for claim C3. -/
def c3Log : Log := { broadcasts := [], seen := ∅ }

/-- Concrete broadcast used as witness input for claim C3. -/
def c3B : Broadcast := { id := 1, origin := 2, payload := [3], sequence := 0 }

/-- Concrete node used as the self identity in the C4 witness. -/
def c4Self : Node := { id := 0, addr := { host := "s", port := 9 } }

/-- Concrete peer used in the C4 witness. -/
def c4Peer : Node := { id := 5, addr := { host := "p", port := 9 } }

/-- Concrete operation sequence used in the C4 witness. -/
def c4Ops : List PeerOp :=
  [PeerOp.Join c4Peer, PeerOp.Demote c4Peer, PeerOp.Promote c4Peer,
   PeerOp.Join c4Self, PeerOp.Remove c4Peer]

/-- C5: a freshly constructed Graph has an empty vertex set and its cached
spanning flag is false; no code in src mutates `spanning` after
construction (the spanning check itself is not yet implemented). -/
theorem c5_graph_new_empty_not_spanning :
    Graph.new.vertices = [] ∧ Graph.new.spanning = false :=
  ⟨rfl, rfl⟩

/-- C9: a freshly created State has empty eager and lazy sets, an empty
broadcast log, the default (empty, non-spanning) graph, and health
initialized to Yellow — not Green and not Red. -/
theorem c9_state_new_defaults :
    State.new.eager = ∅ ∧ State.new.lazy = ∅ ∧ State.new.broadcasts = [] ∧
    State.new.graph = Graph.new ∧ State.new.graph.vertices = [] ∧
    State.new.graph.spanning = false ∧ State.new.health = Health.Yellow ∧
    State.new.health ≠ Health.Green ∧ State.new.health ≠ Health.Red :=
  ⟨rfl, rfl, rfl, rfl, rfl, rfl, rfl, by decide, by decide⟩

/-- C1 counterexample: two Node values with equal ids but different
addresses are NOT equal under the derived (field-wise) equality, and their
derived hashes differ — refuting both halves of the claim that identity is
compared and hashed by id alone. -/
theorem c1_counterexample :
    n1a.id = n1b.id ∧ n1a ≠ n1b ∧ nodeHash n1a ≠ nodeHash n1b := by
  refine ⟨rfl, ?_, ?_⟩ <;> decide

/-- C1 amended: the derived equality on Node is field-wise — `a = b` iff
both the ids and the addresses agree — and the derived hash is a function
of both fields, so structurally equal nodes hash equally. -/
theorem c1_eq_hash_by_both_fields (a b : Node) :
    (a = b ↔ a.id = b.id ∧ a.addr = b.addr) ∧
    (a.id = b.id ∧ a.addr = b.addr → nodeHash a = nodeHash b) := by
  cases a with
  | mk ai aa =>
    cases b with
    | mk bi ba =>
      constructor
      · simp
      · rintro ⟨h1, h2⟩
        simp only at h1 h2
        subst h1
        subst h2
        rfl

/-- C1 witness: the amended theorem instantiated at a concrete pair. -/
theorem c1_eq_hash_witness :
    (n1a = n1a ↔ n1a.id = n1a.id ∧ n1a.addr = n1a.addr) ∧
    (n1a.id = n1a.id ∧ n1a.addr = n1a.addr → nodeHash n1a = nodeHash n1a) :=
  c1_eq_hash_by_both_fields n1a n1a

/-- C2 counterexample: a well-typed value of the server.rs `Graph` type in
which vertex `n2a` references `n2b` but `n2b` does not reference `n2a` —
the representation keeps edges inside each vertex and enforces no
symmetric identity-keyed adjacency relation. -/
theorem c2_counterexample :
    hasEdge asymGraph n2a n2b = true ∧ hasEdge asymGraph n2b n2a = false := by
  constructor <;> decide

/-- C2 amended: edges are owning references held inside each vertex
(`Vertex.edges`), not an identity-keyed adjacency mapping, and symmetry is
not enforced by the type; the only graph the code constructs, `Graph::new`,
has no vertices and hence records no edge reference at all (so it is
trivially symmetric). -/
theorem c2_new_graph_has_no_edges (a b : Node) :
    hasEdge Graph.new a b = false :=
  rfl

/-- C2 witness: the amended theorem at a concrete pair of nodes. -/
theorem c2_new_graph_witness : hasEdge Graph.new n2a n2b = false :=
  c2_new_graph_has_no_edges n2a n2b

/-- C7 counterexample: `close()` does NOT deliver the shutdown request
into the server actor's mailbox — on a fresh server the mailbox is
unchanged (still empty, holding no shutdown message) after `close()`,
while the `Shutdown(UserInitiatedShutdown)` message appears on the client
channel `ctx`, whose receiver is held by the library user, not by the
server's event loop. -/
theorem c7_counterexample :
    (Server.close srv7).mailbox = [] ∧
    ServerMsg.Shutdown ShutdownReason.UserInitiatedShutdown ∉
      (Server.close srv7).mailbox ∧
    (Server.close srv7).ctxSent =
      [ServerMsg.Shutdown ShutdownReason.UserInitiatedShutdown] := by
  refine ⟨rfl, ?_, rfl⟩
  simp [Server.close, srv7, Server.new]

/-- C7 amended: `close()` delivers the shutdown request carrying
`UserInitiatedShutdown` on the client channel `ctx` (whose receiver the
library user holds), leaving the server's own mailbox unchanged; a
shutdown request of that shape is the event that, when processed by the
actor, drives Running → Draining and originates the graceful-leave
broadcast. -/
theorem c7_close_sends_shutdown (s : Server) :
    (Server.close s).ctxSent =
      s.ctxSent ++ [ServerMsg.Shutdown ShutdownReason.UserInitiatedShutdown] ∧
    (Server.close s).mailbox = s.mailbox ∧
    actorStep ActorState.Running
        (ServerMsg.Shutdown ShutdownReason.UserInitiatedShutdown) =
      (ActorState.Draining, true) :=
  ⟨rfl, rfl, rfl⟩

/-- C7 witness: the amended theorem at a concrete server. -/
theorem c7_close_sends_shutdown_witness :
    (Server.close srv7).ctxSent =
      srv7.ctxSent ++ [ServerMsg.Shutdown ShutdownReason.UserInitiatedShutdown] ∧
    (Server.close srv7).mailbox = srv7.mailbox ∧
    actorStep ActorState.Running
        (ServerMsg.Shutdown ShutdownReason.UserInitiatedShutdown) =
      (ActorState.Draining, true) :=
  c7_close_sends_shutdown srv7

/-- C8: `listen(ip, port)` records the bind address on the server and
returns `Ok(())`: it is a total function whose failures (were any
possible) would surface through the `GossipResult` return value, never as
a crash. -/
theorem c8_listen_records_addr (s : Server) (ip : String) (port : Nat) :
    (Server.listen s ip port).1.addr = some (Addr.new ip port) ∧
    (Server.listen s ip port).2 = Except.ok () :=
  ⟨rfl, rfl⟩

/-- C8 witness: the theorem at a concrete server and address. -/
theorem c8_listen_records_addr_witness :
    (Server.listen srv8 "127.0.0.1" 7888).1.addr =
      some (Addr.new "127.0.0.1" 7888) ∧
    (Server.listen srv8 "127.0.0.1" 7888).2 = Except.ok () :=
  c8_listen_records_addr srv8 "127.0.0.1" 7888

/-- C10: `close()` only appends the shutdown message to the client channel
and leaves every other field of the Server — id, addr, every component of
state, the peer list, and the mailbox — unchanged. -/
theorem c10_close_frame (s : Server) :
    (Server.close s).id = s.id ∧
    (Server.close s).addr = s.addr ∧
    (Server.close s).state = s.state ∧
    (Server.close s).state.eager = s.state.eager ∧
    (Server.close s).state.lazy = s.state.lazy ∧
    (Server.close s).state.health = s.state.health ∧
    (Server.close s).state.broadcasts = s.state.broadcasts ∧
    (Server.close s).state.graph = s.state.graph ∧
    (Server.close s).servers = s.servers ∧
    (Server.close s).mailbox = s.mailbox ∧
    (Server.close s).ctxSent =
      s.ctxSent ++ [ServerMsg.Shutdown ShutdownReason.UserInitiatedShutdown] :=
  ⟨rfl, rfl, rfl, rfl, rfl, rfl, rfl, rfl, rfl, rfl, rfl⟩

/-- C10 witness: the frame theorem at a concrete server. -/
theorem c10_close_frame_witness :
    (Server.close srv10).id = srv10.id ∧
    (Server.close srv10).addr = srv10.addr ∧
    (Server.close srv10).state = srv10.state ∧
    (Server.close srv10).state.eager = srv10.state.eager ∧
    (Server.close srv10).state.lazy = srv10.state.lazy ∧
    (Server.close srv10).state.health = srv10.state.health ∧
    (Server.close srv10).state.broadcasts = srv10.state.broadcasts ∧
    (Server.close srv10).state.graph = srv10.state.graph ∧
    (Server.close srv10).servers = srv10.servers ∧
    (Server.close srv10).mailbox = srv10.mailbox ∧
    (Server.close srv10).ctxSent =
      srv10.ctxSent ++ [ServerMsg.Shutdown ShutdownReason.UserInitiatedShutdown] :=
  c10_close_frame srv10

/-- C3: broadcast receipt is idempotent — from any log state, receiving
`b` a second time immediately after receiving it leaves the log state
produced by the first call unchanged and returns `Duplicate`; and the
status of any call is `Accepted` or `Duplicate`, never an error. -/
theorem c3_receive_idempotent (l : Log) (b : Broadcast) :
    receive (receive l b).1 b = ((receive l b).1, ReceiveStatus.Duplicate) ∧
    ((receive l b).2 = ReceiveStatus.Accepted ∨
      (receive l b).2 = ReceiveStatus.Duplicate) := by
  constructor
  · by_cases h : b.id ∈ l.seen
    · simp [receive, h]
    · simp [receive, h]
  · by_cases h : b.id ∈ l.seen <;> simp [receive, h]

/-- C3 witness: the idempotence theorem at a concrete log and
broadcast. -/
theorem c3_receive_idempotent_witness :
    receive (receive c3Log c3B).1 c3B =
      ((receive c3Log c3B).1, ReceiveStatus.Duplicate) ∧
    ((receive c3Log c3B).2 = ReceiveStatus.Accepted ∨
      (receive c3Log c3B).2 = ReceiveStatus.Duplicate) :=
  c3_receive_idempotent c3Log c3B

/-- Each peer-view operation preserves the set invariant. -/
theorem viewInv_applyOp (k : Nat) (selfN : Node) (st : State) (op : PeerOp)
    (h : viewInv selfN st) : viewInv selfN (applyOp k selfN st op) := by
  obtain ⟨hd, he, hl⟩ := h
  cases op with
  | Join p =>
    simp only [applyOp, joinPeer]
    by_cases hg : p = selfN ∨ p ∈ st.eager ∨ p ∈ st.lazy
    · rw [if_pos hg]
      exact ⟨hd, he, hl⟩
    · rw [if_neg hg]
      push_neg at hg
      obtain ⟨hps, hpe, hpl⟩ := hg
      by_cases hc : st.eager.card < k
      · rw [if_pos hc]
        refine ⟨?_, ?_, hl⟩
        · intro x hx
          rcases Finset.mem_insert.mp hx with h1 | h1
          · exact h1 ▸ hpl
          · exact hd x h1
        · intro hcon
          rcases Finset.mem_insert.mp hcon with h1 | h1
          · exact hps h1.symm
          · exact he h1
      · rw [if_neg hc]
        refine ⟨?_, he, ?_⟩
        · intro x hx hcon
          rcases Finset.mem_insert.mp hcon with h1 | h1
          · exact hpe (h1 ▸ hx)
          · exact hd x hx h1
        · intro hcon
          rcases Finset.mem_insert.mp hcon with h1 | h1
          · exact hps h1.symm
          · exact hl h1
  | Promote p =>
    simp only [applyOp, promotePeer]
    by_cases hp : p ∈ st.lazy
    · rw [if_pos hp]
      refine ⟨?_, ?_, fun hcon => hl (Finset.mem_of_mem_erase hcon)⟩
      · intro x hx
        rcases Finset.mem_insert.mp hx with h1 | h1
        · exact h1 ▸ Finset.not_mem_erase p st.lazy
        · exact fun hcon => hd x h1 (Finset.mem_of_mem_erase hcon)
      · intro hcon
        rcases Finset.mem_insert.mp hcon with h1 | h1
        · exact hl (h1 ▸ hp)
        · exact he h1
    · rw [if_neg hp]
      exact ⟨hd, he, hl⟩
  | Demote p =>
    simp only [applyOp, demotePeer]
    by_cases hp : p ∈ st.eager
    · rw [if_pos hp]
      refine ⟨?_, fun hcon => he (Finset.mem_of_mem_erase hcon), ?_⟩
      · intro x hx hcon
        rcases Finset.mem_insert.mp hcon with h1 | h1
        · exact (Finset.not_mem_erase p st.eager) (h1 ▸ hx)
        · exact hd x (Finset.mem_of_mem_erase hx) h1
      · intro hcon
        rcases Finset.mem_insert.mp hcon with h1 | h1
        · exact he (h1 ▸ hp)
        · exact hl h1
    · rw [if_neg hp]
      exact ⟨hd, he, hl⟩
  | Remove p =>
    simp only [applyOp, removePeer]
    refine ⟨?_, fun hcon => he (Finset.mem_of_mem_erase hcon),
      fun hcon => hl (Finset.mem_of_mem_erase hcon)⟩
    intro x hx hcon
    exact hd x (Finset.mem_of_mem_erase hx) (Finset.mem_of_mem_erase hcon)

/-- Any sequence of peer-view operations preserves the set invariant. -/
theorem viewInv_applyOps (k : Nat) (selfN : Node) (st : State)
    (ops : List PeerOp) (h : viewInv selfN st) :
    viewInv selfN (applyOps k selfN st ops) := by
  induction ops generalizing st with
  | nil => exact h
  | cons op rest ih => exact ih _ (viewInv_applyOp k selfN st op h)

/-- C4: after any sequence of admit/promote/demote/remove operations
starting from the initial state, the eager and lazy sets are disjoint and
the server's own identity is a member of neither (and since every list of
operations is quantified over, this holds after every operation of every
sequence). -/
theorem c4_view_invariant (k : Nat) (selfN : Node) (ops : List PeerOp) :
    (applyOps k selfN State.new ops).eager ∩
        (applyOps k selfN State.new ops).lazy = ∅ ∧
    selfN ∉ (applyOps k selfN State.new ops).eager ∧
    selfN ∉ (applyOps k selfN State.new ops).lazy := by
  have hinit : viewInv selfN State.new := by
    refine ⟨?_, ?_, ?_⟩ <;> simp [State.new]
  obtain ⟨hd, he, hl⟩ := viewInv_applyOps k selfN State.new ops hinit
  refine ⟨?_, he, hl⟩
  refine Finset.eq_empty_iff_forall_not_mem.mpr (fun x hx => ?_)
  exact hd x (Finset.mem_inter.mp hx).1 (Finset.mem_inter.mp hx).2

/-- C4 witness: the invariant theorem at a concrete self identity,
capacity, and operation sequence. -/
theorem c4_view_invariant_witness :
    (applyOps 3 c4Self State.new c4Ops).eager ∩
        (applyOps 3 c4Self State.new c4Ops).lazy = ∅ ∧
    c4Self ∉ (applyOps 3 c4Self State.new c4Ops).eager ∧
    c4Self ∉ (applyOps 3 c4Self State.new c4Ops).lazy :=
  c4_view_invariant 3 c4Self c4Ops

/-- C6: the health derivation is a total function into the three-valued
Health type; it returns Yellow only when at least one known peer is
unreachable or there is more than one connected component while reachable
peers still exceed 50% of known peers; and whenever reachable peers are at
or below the majority threshold it returns Red. -/
theorem c6_health_total (known reachable components : Nat) :
    (deriveHealth known reachable components = Health.Green ∨
      deriveHealth known reachable components = Health.Yellow ∨
      deriveHealth known reachable components = Health.Red) ∧
    (deriveHealth known reachable components = Health.Yellow →
      (reachable < known ∨ 1 < components) ∧ known < 2 * reachable) ∧
    (2 * reachable ≤ known →
      deriveHealth known reachable components = Health.Red) := by
  unfold deriveHealth
  by_cases h1 : 2 * reachable ≤ known
  · simp [h1]
  · by_cases h2 : reachable < known ∨ 1 < components
    · simp [h1, h2]
      omega
    · simp [h1, h2]

/-- C6 witness: the health theorem instantiated where it yields Yellow
(5 known, 3 reachable, 2 components) and where the Red hypothesis holds
(4 known, 1 reachable). -/
theorem c6_health_total_witness :
    ((3 < 5 ∨ 1 < 2) ∧ 5 < 2 * 3) ∧ deriveHealth 4 1 1 = Health.Red :=
  ⟨(c6_health_total 5 3 2).2.1 (by decide),
   (c6_health_total 4 1 1).2.2 (by decide)⟩
